import Mathlib

/-!
Shallow embedding of `src/main.rs` of rust-streamdeck: a Stream Deck
control loop that starts/stops audio recordings via a Unix-socket daemon,
plays back or deletes recorded files on tap/hold gestures, and renders
per-key icons.

External interactions (filesystem existence checks, daemon responses,
`fs::remove_file` outcomes, the current instant, the device key count)
are supplied by an oracle `World`; one loop iteration for one event is
the pure function `step`, which returns the new loop state, the list of
observable side effects the handler performed (daemon sends, playback
spawns, delete attempts, icon writes, flushes) in program order, and
whether the `break 'infinite` exit was taken.  `println!`/`eprintln!`
logging is not modelled as an effect.

Times are modelled in milliseconds as `Nat`; `Instant::elapsed` becomes
truncated subtraction `now - start`.  `tokio::spawn` of the playback task
is modelled as the fire-and-forget effect `Effect.spawnPlay`: the step
function never inspects a playback result, mirroring that the loop does
not await the spawned task.
-/

namespace RustStreamdeck

/-- Icons a button can show: `blank` (cleared, never set), `recOff`
(`img_rec_off`, the "empty" icon), `recOn` (`img_rec_on`, the
recording/armed icon), `play` (`img_play`, the has-file/play icon). -/
inductive Icon where
  | blank
  | rec_off
  | rec_on
  | play
deriving DecidableEq, Repr

/-- Commands sent to the audio daemon, as in the source: `"STATUS"`,
`format!("START {}", path)`, `"STOP"`. -/
inductive Cmd where
  | STATUS
  | START (path : String)
  | STOP
deriving DecidableEq, Repr

/-- Wire rendering of a command, exactly the strings the source builds. -/
def renderCmd : Cmd → String
  | Cmd.STATUS => "STATUS"
  | Cmd.START path => "START " ++ path
  | Cmd.STOP => "STOP"

/-- Observable side effects of one event-handler execution, in program
order. -/
inductive Effect where
  | daemonSend (c : Cmd)
  | spawnPlay (path : String)
  | deleteFile (path : String)
  | setImage (key : Nat) (icon : Icon)
  | flush
deriving DecidableEq, Repr

/-- Panel events delivered by the device reader
(`DeviceStateUpdate::ButtonDown/ButtonUp`, wildcard `_` for the rest). -/
inductive Event where
  | buttonDown (key : Nat)
  | buttonUp (key : Nat)
  | other

/-- Oracle for the external world during one event-handler execution:
file existence per path, the daemon's reply (or send failure) per wire
command, `fs::remove_file` success per path, the current instant in
milliseconds, and the device's key count. -/
structure World where
  fileExists : String → Bool
  daemon : String → Except Unit String
  fs_remove_ok : String → Bool
  now : Nat
  key_count : Nat

/-- Mutable state of the event loop: `active_recording_key` and
`pending_delete` from the source, plus the icon currently shown on each
key. -/
structure LoopState where
  active_recording_key : Option Nat
  pending_delete : List (Nat × Nat)
  icons : Nat → Icon

def recording_A : String := "/tmp/recording_A.wav"

def recording_B : String := "/tmp/recording_B.wav"

/-- The static key-to-path binding table built at startup:
`button_files.insert(0, "/tmp/recording_A.wav")`,
`button_files.insert(1, "/tmp/recording_B.wav")`. -/
def button_files (key : Nat) : Option String :=
  if key = 0 then some recording_A
  else if key = 1 then some recording_B
  else none

/-- Lookup in the association-list model of `HashMap<u8, Instant>`. -/
def lookupPD : List (Nat × Nat) → Nat → Option Nat
  | [], _ => none
  | (k, v) :: rest, key => if k = key then some v else lookupPD rest key

/-- Removal of a key, modelling `HashMap::remove`. -/
def erasePD : List (Nat × Nat) → Nat → List (Nat × Nat)
  | [], _ => []
  | (k, v) :: rest, key =>
      if k = key then erasePD rest key else (k, v) :: erasePD rest key

/-- Insertion, modelling `HashMap::insert` (replaces any old entry). -/
def insertPD (l : List (Nat × Nat)) (key v : Nat) : List (Nat × Nat) :=
  (key, v) :: erasePD l key

/-- Boolean test that `pat` occurs at the head of `l`. -/
def matchesAt : List Char → List Char → Bool
  | [], _ => true
  | _ :: _, [] => false
  | a :: as, b :: bs => a == b && matchesAt as bs

/-- Boolean substring occurrence test on character lists. -/
def hasSubstr (pat : List Char) : List Char → Bool
  | [] => matchesAt pat []
  | b :: bs => matchesAt pat (b :: bs) || hasSubstr pat bs

/-- Model of Rust `str::contains(pat)` as used for the `"Listening"`
check: substring containment. -/
def strContains (s pat : String) : Bool :=
  hasSubstr pat.toList s.toList

/-- One daemon exchange as seen by the event loop: the oracle gives the
outcome of `send_audio_command(renderCmd c)`. -/
def sendAudio (w : World) (c : Cmd) : Except Unit String :=
  w.daemon (renderCmd c)

/-- Result of handling one event: successor state, effects in program
order, and whether `break 'infinite` was taken. -/
structure StepResult where
  state : LoopState
  effects : List Effect
  exitLoop : Bool

/-- Pointwise icon update, modelling `device.set_button_image(key, i)`. -/
def setIcon (f : Nat → Icon) (key : Nat) (i : Icon) : Nat → Icon :=
  fun k => if k = key then i else f k

/-- The `DeviceStateUpdate::ButtonDown(key)` arm of the match in `main`:
if the key is bound and its file exists, record the press instant in
`pending_delete` and show the armed icon; if the file is absent, send
`STATUS` and, when the response contains `"Listening"`, send
`START <path>`; on START success set `active_recording_key` and show the
recording icon.  `active_recording_key` is never consulted here. -/
def handleButtonDown (w : World) (s : LoopState) (key : Nat) : StepResult :=
  match button_files key with
  | none => ⟨s, [], false⟩
  | some path =>
    if w.fileExists path then
      ⟨{ s with pending_delete := insertPD s.pending_delete key w.now,
                icons := setIcon s.icons key Icon.rec_on },
       [Effect.setImage key Icon.rec_on, Effect.flush], false⟩
    else
      match sendAudio w Cmd.STATUS with
      | Except.error _ => ⟨s, [Effect.daemonSend Cmd.STATUS], false⟩
      | Except.ok status =>
        if strContains status "Listening" then
          match sendAudio w (Cmd.START path) with
          | Except.ok _ =>
            ⟨{ s with active_recording_key := some key,
                      icons := setIcon s.icons key Icon.rec_on },
             [Effect.daemonSend Cmd.STATUS, Effect.daemonSend (Cmd.START path),
              Effect.setImage key Icon.rec_on, Effect.flush], false⟩
          | Except.error _ =>
            ⟨s, [Effect.daemonSend Cmd.STATUS,
                 Effect.daemonSend (Cmd.START path)], false⟩
        else
          ⟨s, [Effect.daemonSend Cmd.STATUS], false⟩

/-- The `DeviceStateUpdate::ButtonUp(key)` arm of the match in `main`:
first the exit check `key == key_count - 1` (breaks the loop), then the
`active_recording_key == Some(key)` STOP branch, then the
`pending_delete.remove(&key)` tap/hold branch with the inclusive
2-second threshold. -/
def handleButtonUp (w : World) (s : LoopState) (key : Nat) : StepResult :=
  if key = w.key_count - 1 then
    ⟨s, [], true⟩
  else if s.active_recording_key = some key then
    match sendAudio w Cmd.STOP with
    | Except.ok _ =>
      ⟨{ s with active_recording_key := none,
                icons := setIcon s.icons key Icon.play },
       [Effect.daemonSend Cmd.STOP, Effect.setImage key Icon.play,
        Effect.flush], false⟩
    | Except.error _ =>
      ⟨s, [Effect.daemonSend Cmd.STOP, Effect.flush], false⟩
  else
    match lookupPD s.pending_delete key with
    | none => ⟨s, [], false⟩
    | some start_time =>
      let s2 : LoopState := { s with pending_delete := erasePD s.pending_delete key }
      if 2000 ≤ w.now - start_time then
        match button_files key with
        | some path =>
          if w.fs_remove_ok path then
            ⟨{ s2 with icons := setIcon s2.icons key Icon.rec_off },
             [Effect.deleteFile path, Effect.setImage key Icon.rec_off,
              Effect.flush], false⟩
          else
            ⟨{ s2 with icons := setIcon s2.icons key Icon.play },
             [Effect.deleteFile path, Effect.setImage key Icon.play,
              Effect.flush], false⟩
        | none => ⟨s2, [Effect.flush], false⟩
      else
        match button_files key with
        | some path =>
          ⟨{ s2 with icons := setIcon s2.icons key Icon.play },
           [Effect.spawnPlay path, Effect.setImage key Icon.play,
            Effect.flush], false⟩
        | none =>
          ⟨{ s2 with icons := setIcon s2.icons key Icon.play },
           [Effect.setImage key Icon.play, Effect.flush], false⟩

/-- One iteration of the inner `for update in updates` body. -/
def step (w : World) (s : LoopState) : Event → StepResult
  | Event.buttonDown key => handleButtonDown w s key
  | Event.buttonUp key => handleButtonUp w s key
  | Event.other => ⟨s, [], false⟩

/-- Loop state right after startup: no active recording, no pending
holds, bound keys showing `play` if their file exists else `recOff`,
other keys cleared. -/
def initState (fe : String → Bool) : LoopState where
  active_recording_key := none
  pending_delete := []
  icons := fun key =>
    match button_files key with
    | some path => if fe path then Icon.play else Icon.rec_off
    | none => Icon.blank

/-- States reachable by the event loop: the startup state (for any
startup filesystem), closed under handling one event under any world. -/
inductive Reach : LoopState → Prop where
  | init (fe : String → Bool) : Reach (initState fe)
  | next (w : World) (e : Event) (s : LoopState) :
      Reach s → Reach (step w s e).state

/-!
Lower-level model of `send_audio_command`, for the claims about the
daemon client itself.  The oracle records whether `UnixStream::connect`,
`write_all` and `shutdown` fail (carrying the error rendered as a
string), and the outcome of `read_line`: either an IO error, or the data
read into `response` — which, per tokio's `read_line`, is everything up
to and including the first newline, or whatever remained before EOF;
immediate EOF returns `Ok(0)` leaving the buffer empty, modelled as
`Except.ok ""`.
-/

/-- Unicode white-space predicate, as used by Rust `char::is_whitespace`
(the `White_Space` property), which underlies `str::trim`. -/
def isRustWhitespace (c : Char) : Bool :=
  let n := c.toNat
  n == 0x09 || n == 0x0A || n == 0x0B || n == 0x0C || n == 0x0D ||
  n == 0x20 || n == 0x85 || n == 0xA0 || n == 0x1680 ||
  (0x2000 ≤ n && n ≤ 0x200A) ||
  n == 0x2028 || n == 0x2029 || n == 0x202F || n == 0x205F || n == 0x3000

/-- Character-list form of Rust `str::trim`: drop whitespace from the
front, then from the back. -/
def rustTrimList (l : List Char) : List Char :=
  (((l.dropWhile isRustWhitespace).reverse.dropWhile isRustWhitespace)).reverse

/-- Model of Rust `str::trim` followed by `to_string`, as applied to the
daemon response. -/
def rustTrim (s : String) : String :=
  String.mk (rustTrimList s.toList)

/-- Oracle for one `send_audio_command` call: outcomes of connect,
write, shutdown, and of `read_line` (`Except.ok data` is the data
appended to the response buffer; `Except.ok ""` is EOF before any
byte). -/
structure SocketWorld where
  connectErr : Option String
  writeErr : Option String
  shutdownErr : Option String
  readResult : Except String String

/-- Model of `send_audio_command`: propagate connect/write/shutdown/read
errors; on a successful read return the trimmed buffer.  The command
string itself only flows into the socket write, whose outcome the oracle
supplies. -/
def send_audio_command (sw : SocketWorld) (_command : String) :
    Except String String :=
  match sw.connectErr with
  | some e => Except.error e
  | none =>
    match sw.writeErr with
    | some e => Except.error e
    | none =>
      match sw.shutdownErr with
      | some e => Except.error e
      | none =>
        match sw.readResult with
        | Except.error e => Except.error e
        | Except.ok data => Except.ok (rustTrim data)

/-- Boolean test that a result is an error. -/
def isErr : Except String String → Bool
  | Except.error _ => true
  | Except.ok _ => false

/-- Boolean test that a character list does not begin with whitespace. -/
def noLeadWS : List Char → Bool
  | [] => true
  | c :: _ => !isRustWhitespace c

/-- A key just erased from the hold tracker is no longer found. -/
lemma lookupPD_erase (l : List (Nat × Nat)) (key : Nat) :
    lookupPD (erasePD l key) key = none := by
  induction l with
  | nil => rfl
  | cons a rest ih =>
    obtain ⟨k, v⟩ := a
    by_cases h : k = key
    · simpa [erasePD, h] using ih
    · simp [erasePD, lookupPD, h, ih]

/-- A key just inserted into the hold tracker is found with its value. -/
lemma lookupPD_insert (l : List (Nat × Nat)) (key v : Nat) :
    lookupPD (insertPD l key v) key = some v := by
  simp [insertPD, lookupPD]

/-- Any list splits into its whitespace-only prefix and its
`dropWhile` remainder. -/
lemma dropWhile_split (p : Char → Bool) (l : List Char) :
    ∃ t, l = t ++ l.dropWhile p ∧ t.all p = true := by
  induction l with
  | nil => exact ⟨[], rfl, rfl⟩
  | cons a rest ih =>
    cases h : p a with
    | true =>
      obtain ⟨t, ht, hall⟩ := ih
      refine ⟨a :: t, ?_, ?_⟩
      · simp [List.dropWhile, h]
        exact ht
      · simp [List.all_cons, h, hall]
    | false =>
      refine ⟨[], ?_, rfl⟩
      simp [List.dropWhile, h]

/-- The head of a `dropWhile` result does not satisfy the predicate. -/
lemma noLeadWS_dropWhile (l : List Char) :
    noLeadWS (l.dropWhile isRustWhitespace) = true := by
  induction l with
  | nil => rfl
  | cons a rest ih =>
    cases h : isRustWhitespace a with
    | true => simpa [List.dropWhile, h] using ih
    | false => simp [List.dropWhile, h, noLeadWS]

/-- Leading-whitespace freedom passes to the left part of an append. -/
lemma noLeadWS_append_left (r u : List Char)
    (h : noLeadWS (r ++ u) = true) : noLeadWS r = true := by
  cases r with
  | nil => rfl
  | cons c r2 => simpa [noLeadWS] using h

/-- The trimmed list does not begin with whitespace. -/
lemma rustTrimList_noLead (l : List Char) :
    noLeadWS (rustTrimList l) = true := by
  obtain ⟨t, ht, hall⟩ :=
    dropWhile_split isRustWhitespace (l.dropWhile isRustWhitespace).reverse
  have hm2 : l.dropWhile isRustWhitespace =
      rustTrimList l ++ t.reverse := by
    have h2 := congrArg List.reverse ht
    simpa [rustTrimList] using h2
  have hlead : noLeadWS (l.dropWhile isRustWhitespace) = true :=
    noLeadWS_dropWhile l
  rw [hm2] at hlead
  exact noLeadWS_append_left _ _ hlead

/-- The trimmed list does not end with whitespace. -/
lemma rustTrimList_noTrail (l : List Char) :
    noLeadWS (rustTrimList l).reverse = true := by
  unfold rustTrimList
  rw [List.reverse_reverse]
  exact noLeadWS_dropWhile _

/-- Trimming only removes whitespace, and only at the two ends. -/
lemma rustTrimList_split (l : List Char) :
    ∃ pre post, l = pre ++ rustTrimList l ++ post ∧
      pre.all isRustWhitespace = true ∧ post.all isRustWhitespace = true := by
  obtain ⟨pre, hpre, hpre_all⟩ := dropWhile_split isRustWhitespace l
  obtain ⟨t, ht, ht_all⟩ :=
    dropWhile_split isRustWhitespace (l.dropWhile isRustWhitespace).reverse
  have hm2 : l.dropWhile isRustWhitespace =
      rustTrimList l ++ t.reverse := by
    have h2 := congrArg List.reverse ht
    simpa [rustTrimList] using h2
  refine ⟨pre, t.reverse, ?_, hpre_all, ?_⟩
  · conv_lhs => rw [hpre, hm2]
    exact (List.append_assoc pre (rustTrimList l) t.reverse).symm
  · simpa using ht_all

/-- Predicate of C1: at most one key is in the Recording state. -/
def atMostOneRecording (s : LoopState) : Prop :=
  ∀ k k2 : Nat, s.active_recording_key = some k →
    s.active_recording_key = some k2 → k = k2

/-- C1: at every state reachable by the event loop the process-wide
`active_recording_key` slot holds no key or exactly one key — so at most
one key is in the Recording state — and every press/release transition
preserves this.  The slot is a single `Option Nat`, so the invariant is
enforced by construction, exactly as the source's
`active_recording_key: Option<u8>` is. -/
theorem c1_single_active_key (s : LoopState) (h : Reach s) :
    atMostOneRecording s ∧
    ∀ (w : World) (e : Event), atMostOneRecording (step w s e).state := by
  refine ⟨?_, ?_⟩
  · intro k k2 h1 h2
    rw [h1] at h2
    exact Option.some.inj h2
  · intro w e k k2 h1 h2
    rw [h1] at h2
    exact Option.some.inj h2

/-- C1 witness: the startup state is reachable and the theorem applies
to it. -/
theorem c1_single_active_key_witness :
    atMostOneRecording (initState (fun _ => false)) ∧
    ∀ (w : World) (e : Event),
      atMostOneRecording (step w (initState (fun _ => false)) e).state :=
  c1_single_active_key _ (Reach.init _)

/-- C7: releasing the highest-indexed key (`key == key_count - 1`)
terminates the control loop unconditionally: the exit check is the first
thing the ButtonUp handler does, so no STOP, no HoldTracker processing
and no other effect happens, for every loop state — recording active or
hold in flight included. -/
theorem c7_exit_gesture (w : World) (s : LoopState) (key : Nat)
    (hk : key = w.key_count - 1) :
    (step w s (Event.buttonUp key)).exitLoop = true ∧
    (step w s (Event.buttonUp key)).state = s ∧
    (step w s (Event.buttonUp key)).effects = [] := by
  simp [step, handleButtonUp, hk]

/-- C7 witness: on a 6-key device, releasing key 5 exits even though a
recording is active on key 0 and key 1 has a hold in flight. -/
theorem c7_exit_gesture_witness :
    (step ⟨fun _ => true, fun _ => Except.ok "OK", fun _ => true, 9000, 6⟩
      ⟨some 0, [(1, 500)], fun _ => Icon.rec_on⟩ (Event.buttonUp 5)).exitLoop =
        true ∧
    (step ⟨fun _ => true, fun _ => Except.ok "OK", fun _ => true, 9000, 6⟩
      ⟨some 0, [(1, 500)], fun _ => Icon.rec_on⟩ (Event.buttonUp 5)).state =
        ⟨some 0, [(1, 500)], fun _ => Icon.rec_on⟩ ∧
    (step ⟨fun _ => true, fun _ => Except.ok "OK", fun _ => true, 9000, 6⟩
      ⟨some 0, [(1, 500)], fun _ => Icon.rec_on⟩ (Event.buttonUp 5)).effects =
        [] :=
  c7_exit_gesture _ _ 5 (by decide)

/-- C9 counterexample: with connect, write and shutdown all succeeding
but the daemon closing the stream before sending any byte (`read_line`
returns `Ok(0)` with an empty buffer), `send_audio_command` returns
`Ok("")` — a successful empty response — not an error, contradicting the
claim that end-of-stream with no line yields a `ConnectionError`. -/
theorem c9_counterexample :
    send_audio_command ⟨none, none, none, Except.ok ""⟩ "STOP" =
      Except.ok "" ∧
    isErr (send_audio_command ⟨none, none, none, Except.ok ""⟩ "STOP") =
      false :=
  ⟨rfl, rfl⟩

/-- C9 amended: `send_audio_command` returns an error whenever the
socket connect fails, the write fails, the shutdown fails, or the read
itself fails; but end-of-stream before any byte is read is not an error:
it yields `Ok` of the empty string. -/
theorem c9_send_errors (sw : SocketWorld) (cmd : String) :
    (sw.connectErr ≠ none → isErr (send_audio_command sw cmd) = true) ∧
    (sw.writeErr ≠ none → isErr (send_audio_command sw cmd) = true) ∧
    (sw.shutdownErr ≠ none → isErr (send_audio_command sw cmd) = true) ∧
    (∀ e : String, sw.readResult = Except.error e →
      isErr (send_audio_command sw cmd) = true) ∧
    (sw.connectErr = none → sw.writeErr = none → sw.shutdownErr = none →
      sw.readResult = Except.ok "" →
      send_audio_command sw cmd = Except.ok "") := by
  obtain ⟨ce, we, se, rr⟩ := sw
  refine ⟨?_, ?_, ?_, ?_, ?_⟩
  · intro h
    cases ce with
    | none => exact absurd rfl h
    | some e => rfl
  · intro h
    cases ce with
    | some e => rfl
    | none =>
      cases we with
      | none => exact absurd rfl h
      | some e => rfl
  · intro h
    cases ce with
    | some e => rfl
    | none =>
      cases we with
      | some e => rfl
      | none =>
        cases se with
        | none => exact absurd rfl h
        | some e => rfl
  · intro e he
    cases ce with
    | some e2 => rfl
    | none =>
      cases we with
      | some e2 => rfl
      | none =>
        cases se with
        | some e2 => rfl
        | none =>
          simp only at he
          rw [show rr = Except.error e from he]
          rfl
  · intro h1 h2 h3 h4
    simp only at h1 h2 h3 h4
    subst h1
    subst h2
    subst h3
    subst h4
    rfl

/-- C9 amended witness: a failed connect yields an error result. -/
theorem c9_send_errors_witness :
    isErr (send_audio_command
      ⟨some "connection refused", none, none, Except.ok "OK"⟩ "STATUS") =
      true :=
  (c9_send_errors ⟨some "connection refused", none, none, Except.ok "OK"⟩
    "STATUS").1 (by decide)

/-- C10: on a successful exchange the daemon client returns the received
line with leading and trailing whitespace (the terminating newline
included, since `\x0a` is whitespace) removed: the result is exactly
`rustTrim raw`, it neither begins nor ends with a whitespace character,
and the removed material is whitespace at the two ends only. -/
theorem c10_response_trimmed (sw : SocketWorld) (cmd raw : String)
    (hc : sw.connectErr = none) (hw : sw.writeErr = none)
    (hsd : sw.shutdownErr = none) (hr : sw.readResult = Except.ok raw) :
    send_audio_command sw cmd = Except.ok (rustTrim raw) ∧
    noLeadWS (rustTrim raw).toList = true ∧
    noLeadWS (rustTrim raw).toList.reverse = true ∧
    ∃ pre post, raw.toList = pre ++ (rustTrim raw).toList ++ post ∧
      pre.all isRustWhitespace = true ∧ post.all isRustWhitespace = true := by
  obtain ⟨ce, we, se, rr⟩ := sw
  simp only at hc hw hsd hr
  subst hc
  subst hw
  subst hsd
  subst hr
  exact ⟨rfl, rustTrimList_noLead raw.toList, rustTrimList_noTrail raw.toList,
    rustTrimList_split raw.toList⟩

/-- C10 witness: the response `" Listening\x0a"` comes back as
`"Listening"`. -/
theorem c10_response_trimmed_witness :
    send_audio_command
        ⟨none, none, none, Except.ok " Listening\n"⟩ "STATUS" =
      Except.ok (rustTrim " Listening\n") ∧
    noLeadWS (rustTrim " Listening\n").toList = true ∧
    noLeadWS (rustTrim " Listening\n").toList.reverse = true ∧
    ∃ pre post, (" Listening\n").toList =
        pre ++ (rustTrim " Listening\n").toList ++ post ∧
      pre.all isRustWhitespace = true ∧ post.all isRustWhitespace = true :=
  c10_response_trimmed ⟨none, none, none, Except.ok " Listening\n"⟩
    "STATUS" " Listening\n" rfl rfl rfl rfl

/-- Concrete loop state with key 0 actively recording, used by
witnesses and counterexamples. -/
def sActive : LoopState := ⟨some 0, [], fun _ => Icon.play⟩

/-- Concrete world on a 6-key device: every file exists, every daemon
send succeeds with reply `"OK"`, deletes succeed, the instant is 777. -/
def wHasFile : World :=
  ⟨fun _ => true, fun _ => Except.ok "OK", fun _ => true, 777, 6⟩

/-- Concrete world where every daemon send fails. -/
def wDaemonDown : World :=
  ⟨fun _ => true, fun _ => Except.error (), fun _ => true, 777, 6⟩

/-- C2: a release of the key equal to `active_recording_key` — when it
is not the exit key, whose check runs first (see C7) — issues a STOP
command; if the STOP send fails the whole loop state, active key and
icons included, is left unchanged and only a flush happens, so the same
release fires this theorem again and retries STOP; only when the STOP
send succeeds is `active_recording_key` cleared and the has-file/play
icon rendered on the key. -/
theorem c2_stop_on_release (w : World) (s : LoopState) (key : Nat)
    (hact : s.active_recording_key = some key)
    (hexit : key ≠ w.key_count - 1) :
    Effect.daemonSend Cmd.STOP ∈ (step w s (Event.buttonUp key)).effects ∧
    (∀ e : Unit, w.daemon "STOP" = Except.error e →
      (step w s (Event.buttonUp key)).state = s ∧
      (step w s (Event.buttonUp key)).effects =
        [Effect.daemonSend Cmd.STOP, Effect.flush]) ∧
    (∀ resp : String, w.daemon "STOP" = Except.ok resp →
      (step w s (Event.buttonUp key)).state.active_recording_key = none ∧
      (step w s (Event.buttonUp key)).state.icons key = Icon.play) := by
  have hstep : step w s (Event.buttonUp key) = handleButtonUp w s key := rfl
  rw [hstep]
  unfold handleButtonUp
  rw [if_neg hexit, if_pos hact]
  cases hd : sendAudio w Cmd.STOP with
  | error e =>
    refine ⟨by simp, ?_, ?_⟩
    · intro e2 he
      exact ⟨rfl, rfl⟩
    · intro resp hr
      have hd2 : w.daemon "STOP" = Except.error e := hd
      rw [hr] at hd2
      exact Except.noConfusion hd2
  | ok resp =>
    refine ⟨by simp, ?_, ?_⟩
    · intro e he
      have hd2 : w.daemon "STOP" = Except.ok resp := hd
      rw [he] at hd2
      exact Except.noConfusion hd2
    · intro resp2 hr
      exact ⟨rfl, by simp [setIcon]⟩

/-- C2 witness: key 0 is recording on a 6-key device and STOP succeeds. -/
theorem c2_stop_on_release_witness :
    Effect.daemonSend Cmd.STOP ∈
      (step wHasFile sActive (Event.buttonUp 0)).effects ∧
    (∀ e : Unit, wHasFile.daemon "STOP" = Except.error e →
      (step wHasFile sActive (Event.buttonUp 0)).state = sActive ∧
      (step wHasFile sActive (Event.buttonUp 0)).effects =
        [Effect.daemonSend Cmd.STOP, Effect.flush]) ∧
    (∀ resp : String, wHasFile.daemon "STOP" = Except.ok resp →
      (step wHasFile sActive (Event.buttonUp 0)).state.active_recording_key =
        none ∧
      (step wHasFile sActive (Event.buttonUp 0)).state.icons 0 = Icon.play) :=
  c2_stop_on_release wHasFile sActive 0 rfl (by decide)

/-- C3: releasing a key present in `pending_delete` (when it is neither
the exit key nor the active recording key, both of whose checks run
first) removes the entry and branches on the inclusive 2000 ms
threshold: at `2000 ≤ elapsed` — so exactly 2000 ms included — the
delete branch runs (a delete attempt on the key's file, the empty icon
on success, and no playback); below 2000 ms playback of the file is
spawned fire-and-forget and the has-file/play icon is rendered, with no
delete attempt. -/
theorem c3_hold_release (w : World) (s : LoopState)
    (key start_time : Nat) (path : String)
    (hpd : lookupPD s.pending_delete key = some start_time)
    (hexit : key ≠ w.key_count - 1)
    (hact : s.active_recording_key ≠ some key)
    (hbf : button_files key = some path) :
    lookupPD (step w s (Event.buttonUp key)).state.pending_delete key =
      none ∧
    (2000 ≤ w.now - start_time →
      Effect.deleteFile path ∈ (step w s (Event.buttonUp key)).effects ∧
      Effect.spawnPlay path ∉ (step w s (Event.buttonUp key)).effects ∧
      (w.fs_remove_ok path = true →
        (step w s (Event.buttonUp key)).state.icons key = Icon.rec_off)) ∧
    (w.now - start_time < 2000 →
      Effect.spawnPlay path ∈ (step w s (Event.buttonUp key)).effects ∧
      Effect.deleteFile path ∉ (step w s (Event.buttonUp key)).effects ∧
      (step w s (Event.buttonUp key)).state.icons key = Icon.play) := by
  have hstep : step w s (Event.buttonUp key) = handleButtonUp w s key := rfl
  rw [hstep]
  unfold handleButtonUp
  rw [if_neg hexit, if_neg hact]
  simp only [hpd, hbf]
  by_cases ht : 2000 ≤ w.now - start_time
  · rw [if_pos ht]
    by_cases hfs : w.fs_remove_ok path = true
    · rw [if_pos hfs]
      refine ⟨lookupPD_erase s.pending_delete key, ?_, ?_⟩
      · intro h2
        exact ⟨by simp, by simp, fun _ => by simp [setIcon]⟩
      · intro h2
        omega
    · rw [if_neg hfs]
      refine ⟨lookupPD_erase s.pending_delete key, ?_, ?_⟩
      · intro h2
        refine ⟨by simp, by simp, fun hfs2 => absurd hfs2 hfs⟩
      · intro h2
        omega
  · rw [if_neg ht]
    refine ⟨lookupPD_erase s.pending_delete key, ?_, ?_⟩
    · intro h2
      omega
    · intro h2
      exact ⟨by simp, by simp, by simp [setIcon]⟩

/-- Concrete loop state with a hold in flight on key 0 since instant
1000, no active recording. -/
def sHeld : LoopState := ⟨none, [(0, 1000)], fun _ => Icon.rec_on⟩

/-- Concrete world whose instant 3000 makes the key-0 hold exactly
2000 ms old (the inclusive boundary). -/
def wBoundary : World :=
  ⟨fun _ => true, fun _ => Except.ok "OK", fun _ => true, 3000, 6⟩

/-- C3 witness: a hold of exactly 2000 ms on key 0 takes the delete
branch. -/
theorem c3_hold_release_witness :
    lookupPD (step wBoundary sHeld (Event.buttonUp 0)).state.pending_delete
      0 = none ∧
    (2000 ≤ wBoundary.now - 1000 →
      Effect.deleteFile recording_A ∈
        (step wBoundary sHeld (Event.buttonUp 0)).effects ∧
      Effect.spawnPlay recording_A ∉
        (step wBoundary sHeld (Event.buttonUp 0)).effects ∧
      (wBoundary.fs_remove_ok recording_A = true →
        (step wBoundary sHeld (Event.buttonUp 0)).state.icons 0 =
          Icon.rec_off)) ∧
    (wBoundary.now - 1000 < 2000 →
      Effect.spawnPlay recording_A ∈
        (step wBoundary sHeld (Event.buttonUp 0)).effects ∧
      Effect.deleteFile recording_A ∉
        (step wBoundary sHeld (Event.buttonUp 0)).effects ∧
      (step wBoundary sHeld (Event.buttonUp 0)).state.icons 0 =
        Icon.play) :=
  c3_hold_release wBoundary sHeld 0 1000 recording_A rfl (by decide)
    (by decide) rfl

/-- Concrete world like `wBoundary` but where `fs::remove_file` fails. -/
def wDeleteFails : World :=
  ⟨fun _ => true, fun _ => Except.ok "OK", fun _ => false, 3000, 6⟩

/-- C8: when a hold-release takes the delete branch and the deletion
fails, the handler performs exactly one delete attempt followed by
rendering the has-file/play icon and a flush — so no retry and no other
effect — and `active_recording_key` is untouched; the hold entry is
still consumed.  (The file itself stays in place: the single failed
remove is the only filesystem effect.) -/
theorem c8_delete_failure (w : World) (s : LoopState)
    (key start_time : Nat) (path : String)
    (hpd : lookupPD s.pending_delete key = some start_time)
    (hexit : key ≠ w.key_count - 1)
    (hact : s.active_recording_key ≠ some key)
    (hbf : button_files key = some path)
    (hheld : 2000 ≤ w.now - start_time)
    (hrm : w.fs_remove_ok path = false) :
    (step w s (Event.buttonUp key)).effects =
      [Effect.deleteFile path, Effect.setImage key Icon.play,
       Effect.flush] ∧
    (step w s (Event.buttonUp key)).state.icons key = Icon.play ∧
    (step w s (Event.buttonUp key)).state.active_recording_key =
      s.active_recording_key ∧
    lookupPD (step w s (Event.buttonUp key)).state.pending_delete key =
      none := by
  have hstep : step w s (Event.buttonUp key) = handleButtonUp w s key := rfl
  rw [hstep]
  unfold handleButtonUp
  rw [if_neg hexit, if_neg hact]
  simp only [hpd, hbf]
  rw [if_pos hheld, if_neg (by simp [hrm])]
  exact ⟨rfl, by simp [setIcon], rfl, lookupPD_erase s.pending_delete key⟩

/-- C8 witness: a 2000 ms hold on key 0 with a failing delete. -/
theorem c8_delete_failure_witness :
    (step wDeleteFails sHeld (Event.buttonUp 0)).effects =
      [Effect.deleteFile recording_A, Effect.setImage 0 Icon.play,
       Effect.flush] ∧
    (step wDeleteFails sHeld (Event.buttonUp 0)).state.icons 0 =
      Icon.play ∧
    (step wDeleteFails sHeld (Event.buttonUp 0)).state.active_recording_key =
      sHeld.active_recording_key ∧
    lookupPD (step wDeleteFails sHeld (Event.buttonUp 0)).state.pending_delete
      0 = none :=
  c8_delete_failure wDeleteFails sHeld 0 1000 recording_A rfl (by decide)
    (by decide) rfl (by decide) rfl

/-- C4 counterexample: key 0 is the active recording key (state
`sActive`) and its file exists on disk (`wDaemonDown.fileExists` is
constantly true, daemon unreachable, instant 777).  The claim says this
press is a no-op with no HoldTracker entry and no state or icon change;
but the ButtonDown handler never consults `active_recording_key`: the
press creates the hold entry `(0, 777)`, switches the key-0 icon from
`play` to `rec_on` and emits a set-image and a flush. -/
theorem c4_counterexample :
    sActive.active_recording_key = some 0 ∧
    sActive.icons 0 = Icon.play ∧
    lookupPD
      (step wDaemonDown sActive (Event.buttonDown 0)).state.pending_delete
      0 = some 777 ∧
    (step wDaemonDown sActive (Event.buttonDown 0)).state.icons 0 =
      Icon.rec_on ∧
    (step wDaemonDown sActive (Event.buttonDown 0)).effects =
      [Effect.setImage 0 Icon.rec_on, Effect.flush] :=
  ⟨rfl, rfl, rfl, rfl, rfl⟩

/-- C4 amended: a press-down on the key equal to
`active_recording_key` is not special-cased — the handler never reads
`active_recording_key` and the key is not treated as file-less.  If the
bound key's file exists on disk, a HoldTracker entry stamped with the
current instant is created, the recording/armed icon is rendered and a
flush emitted; if the file is absent, a STATUS command is sent to the
daemon (first effect), exactly as for a non-active key. -/
theorem c4_active_key_press (w : World) (s : LoopState) (key : Nat)
    (path : String)
    (hact : s.active_recording_key = some key)
    (hbf : button_files key = some path) :
    (w.fileExists path = true →
      lookupPD (step w s (Event.buttonDown key)).state.pending_delete key =
        some w.now ∧
      (step w s (Event.buttonDown key)).state.icons key = Icon.rec_on ∧
      (step w s (Event.buttonDown key)).effects =
        [Effect.setImage key Icon.rec_on, Effect.flush]) ∧
    (w.fileExists path = false →
      (step w s (Event.buttonDown key)).effects.head? =
        some (Effect.daemonSend Cmd.STATUS)) := by
  have hstep : step w s (Event.buttonDown key) = handleButtonDown w s key :=
    rfl
  rw [hstep]
  unfold handleButtonDown
  simp only [hbf]
  constructor
  · intro hfe
    rw [if_pos hfe]
    exact ⟨lookupPD_insert _ _ _, by simp [setIcon], rfl⟩
  · intro hfe
    rw [if_neg (by simp [hfe])]
    cases hd : sendAudio w Cmd.STATUS with
    | error e => rfl
    | ok status =>
      cases hl : strContains status "Listening" with
      | false =>
        simp only [hl]
        rfl
      | true =>
        simp only [hl]
        cases hd2 : sendAudio w (Cmd.START path) with
        | error e => rfl
        | ok r => rfl

/-- C4 amended witness: the counterexample scenario satisfies the
amended description. -/
theorem c4_active_key_press_witness :
    (wDaemonDown.fileExists recording_A = true →
      lookupPD
        (step wDaemonDown sActive (Event.buttonDown 0)).state.pending_delete
        0 = some wDaemonDown.now ∧
      (step wDaemonDown sActive (Event.buttonDown 0)).state.icons 0 =
        Icon.rec_on ∧
      (step wDaemonDown sActive (Event.buttonDown 0)).effects =
        [Effect.setImage 0 Icon.rec_on, Effect.flush]) ∧
    (wDaemonDown.fileExists recording_A = false →
      (step wDaemonDown sActive (Event.buttonDown 0)).effects.head? =
        some (Effect.daemonSend Cmd.STATUS)) :=
  c4_active_key_press wDaemonDown sActive 0 recording_A rfl rfl

/-- Concrete loop state with nothing active and nothing pending. -/
def sEmpty : LoopState := ⟨none, [], fun _ => Icon.rec_off⟩

/-- Concrete world where no file exists, STATUS answers `"Listening"`,
every other command succeeds with `"OK"`. -/
def wListening : World :=
  ⟨fun _ => false,
   fun c => if c = "STATUS" then Except.ok "Listening" else Except.ok "OK",
   fun _ => true, 0, 6⟩

/-- C5: a press-down on a bound key whose file is absent sends STATUS
as its first command, sends `START <path>` if and only if the STATUS
send succeeded with a response containing `"Listening"`, and when the
START send also succeeds it sets `active_recording_key` to this key,
renders the recording icon and flushes. -/
theorem c5_empty_press (w : World) (s : LoopState) (key : Nat)
    (path : String)
    (hbf : button_files key = some path)
    (hfe : w.fileExists path = false) :
    (step w s (Event.buttonDown key)).effects.head? =
      some (Effect.daemonSend Cmd.STATUS) ∧
    (Effect.daemonSend (Cmd.START path) ∈
        (step w s (Event.buttonDown key)).effects ↔
      ∃ resp, w.daemon "STATUS" = Except.ok resp ∧
        strContains resp "Listening" = true) ∧
    (∀ resp resp2 : String, w.daemon "STATUS" = Except.ok resp →
      strContains resp "Listening" = true →
      w.daemon ("START " ++ path) = Except.ok resp2 →
      (step w s (Event.buttonDown key)).state.active_recording_key =
        some key ∧
      (step w s (Event.buttonDown key)).state.icons key = Icon.rec_on ∧
      (step w s (Event.buttonDown key)).effects =
        [Effect.daemonSend Cmd.STATUS, Effect.daemonSend (Cmd.START path),
         Effect.setImage key Icon.rec_on, Effect.flush]) := by
  have hstep : step w s (Event.buttonDown key) = handleButtonDown w s key :=
    rfl
  rw [hstep]
  unfold handleButtonDown
  simp only [hbf]
  rw [if_neg (by simp [hfe])]
  cases hd : sendAudio w Cmd.STATUS with
  | error e =>
    refine ⟨rfl, ?_, ?_⟩
    · constructor
      · intro hmem
        simp at hmem
      · rintro ⟨resp, hresp, hcont⟩
        have hd2 : w.daemon "STATUS" = Except.error e := hd
        rw [hresp] at hd2
        exact Except.noConfusion hd2
    · intro resp resp2 hresp hcont hstart
      have hd2 : w.daemon "STATUS" = Except.error e := hd
      rw [hresp] at hd2
      exact Except.noConfusion hd2
  | ok status =>
    cases hl : strContains status "Listening" with
    | false =>
      simp only [hl]
      refine ⟨rfl, ?_, ?_⟩
      · constructor
        · intro hmem
          simp at hmem
        · rintro ⟨resp, hresp, hcont⟩
          have hd2 : w.daemon "STATUS" = Except.ok status := hd
          rw [hresp] at hd2
          cases Except.ok.inj hd2
          rw [hl] at hcont
          exact Bool.noConfusion hcont
      · intro resp resp2 hresp hcont hstart
        have hd2 : w.daemon "STATUS" = Except.ok status := hd
        rw [hresp] at hd2
        cases Except.ok.inj hd2
        rw [hl] at hcont
        exact Bool.noConfusion hcont
    | true =>
      simp only [hl]
      cases hd2 : sendAudio w (Cmd.START path) with
      | error e =>
        refine ⟨rfl, ?_, ?_⟩
        · constructor
          · intro _
            exact ⟨status, hd, hl⟩
          · intro _
            simp
        · intro resp resp2 hresp hcont hstart
          have hd3 : w.daemon ("START " ++ path) = Except.error e := hd2
          rw [hstart] at hd3
          exact Except.noConfusion hd3
      | ok r =>
        refine ⟨rfl, ?_, ?_⟩
        · constructor
          · intro _
            exact ⟨status, hd, hl⟩
          · intro _
            simp
        · intro resp resp2 hresp hcont hstart
          exact ⟨rfl, by simp [setIcon], rfl⟩

/-- C5 witness: pressing key 0 with no file, a listening daemon and a
successful START. -/
theorem c5_empty_press_witness :
    (step wListening sEmpty (Event.buttonDown 0)).effects.head? =
      some (Effect.daemonSend Cmd.STATUS) ∧
    (Effect.daemonSend (Cmd.START recording_A) ∈
        (step wListening sEmpty (Event.buttonDown 0)).effects ↔
      ∃ resp, wListening.daemon "STATUS" = Except.ok resp ∧
        strContains resp "Listening" = true) ∧
    (∀ resp resp2 : String, wListening.daemon "STATUS" = Except.ok resp →
      strContains resp "Listening" = true →
      wListening.daemon ("START " ++ recording_A) = Except.ok resp2 →
      (step wListening sEmpty (Event.buttonDown 0)).state.active_recording_key =
        some 0 ∧
      (step wListening sEmpty (Event.buttonDown 0)).state.icons 0 =
        Icon.rec_on ∧
      (step wListening sEmpty (Event.buttonDown 0)).effects =
        [Effect.daemonSend Cmd.STATUS,
         Effect.daemonSend (Cmd.START recording_A),
         Effect.setImage 0 Icon.rec_on, Effect.flush]) :=
  c5_empty_press wListening sEmpty 0 recording_A rfl rfl

/-- Concrete world where no file exists and every daemon send succeeds
with the non-listening reply `"Busy"`. -/
def wBusy : World :=
  ⟨fun _ => false, fun _ => Except.ok "Busy", fun _ => true, 0, 6⟩

/-- C6: a press-down on a bound key whose file is absent, when the
STATUS send fails or its response does not contain `"Listening"`,
leaves the loop state — `active_recording_key`, `pending_delete` and
every icon — completely unchanged, and the only effect is the STATUS
send itself (plus logging, which is outside the model): no icon write,
no flush, no further command. -/
theorem c6_status_not_listening (w : World) (s : LoopState) (key : Nat)
    (path : String)
    (hbf : button_files key = some path)
    (hfe : w.fileExists path = false)
    (hfail : ∀ resp : String, w.daemon "STATUS" = Except.ok resp →
      strContains resp "Listening" = false) :
    (step w s (Event.buttonDown key)).state = s ∧
    (step w s (Event.buttonDown key)).effects =
      [Effect.daemonSend Cmd.STATUS] := by
  have hstep : step w s (Event.buttonDown key) = handleButtonDown w s key :=
    rfl
  rw [hstep]
  unfold handleButtonDown
  simp only [hbf]
  rw [if_neg (by simp [hfe])]
  cases hd : sendAudio w Cmd.STATUS with
  | error e => exact ⟨rfl, rfl⟩
  | ok status =>
    have hcont : strContains status "Listening" = false := hfail status hd
    simp only [hcont]
    exact ⟨rfl, rfl⟩

/-- C6 witness: a busy daemon leaves the state untouched. -/
theorem c6_status_not_listening_witness :
    (step wBusy sEmpty (Event.buttonDown 0)).state = sEmpty ∧
    (step wBusy sEmpty (Event.buttonDown 0)).effects =
      [Effect.daemonSend Cmd.STATUS] :=
  c6_status_not_listening wBusy sEmpty 0 recording_A rfl rfl
    (by
      intro resp h
      have h2 : (Except.ok "Busy" : Except Unit String) = Except.ok resp := h
      cases Except.ok.inj h2
      decide)

end RustStreamdeck
